import Mathlib

set_option maxHeartbeats 1000000

/-! Shallow embedding of the attendance / leaderboard dashboard components
(`src/components/*.tsx`) of the mock-interview admin application.
Client-side pure computations (filtering, sorting, CSV row building,
statistics, access classification) are translated into executable Lean
definitions; stateful mutation handlers become explicit state-passing
functions taking the backend response as a parameter.  Machine numbers
(scores, percentages) are modelled as rationals, timestamps as integers. -/

namespace MockInterview

/-- Message banner type used by the components (`setMessage({type, text})`). -/
inductive MsgType where
  | success
  | error
deriving DecidableEq

/-- A dismissible inline banner message, `{ type, text }` in the source. -/
structure Message where
  type : MsgType
  text : String
deriving DecidableEq

/-- A backend (PostgREST-style) error carrying its error code string. -/
structure DbError where
  code : String
deriving DecidableEq

/-- Does the second character list start with the first one?  Helper for the
JavaScript `String.prototype.includes` substring test. -/
def startsWithChars : List Char → List Char → Bool
  | [], _ => true
  | _ :: _, [] => false
  | a :: as, b :: bs => a == b && startsWithChars as bs

/-- Does the second character list contain the first one as a contiguous
segment?  Helper for `String.prototype.includes`. -/
def hasSubChars (sub : List Char) : List Char → Bool
  | [] => startsWithChars sub []
  | c :: rest => startsWithChars sub (c :: rest) || hasSubChars sub rest

/-- JavaScript `s.toLowerCase().includes(sub.toLowerCase())`: lower-casing is
character-wise (as `String.toLower` is), then `sub` must occur contiguously
in `s`. -/
def includesLowerStr (s sub : String) : Bool :=
  hasSubChars (sub.data.map Char.toLower) (s.data.map Char.toLower)

namespace PublicBatchStats

/-- A row of `batch_public_urls` as selected by `loadBatchStats`
(`select('batch_id, is_active, expires_at')`, plus the `public_id` key the
query filters on).  `expires_at` is a timestamp, modelled as an integer. -/
structure UrlRow where
  public_id : String
  batch_id : String
  is_active : Bool
  expires_at : Int
deriving DecidableEq

/-- Outcome of a public-view access in `PublicBatchStats.loadBatchStats`:
one of the three error classifications, or a successful load of the batch. -/
inductive ViewOutcome where
  | notFound
  | revoked
  | expired
  | ok (batch_id : String)
deriving DecidableEq

/-- The user-facing error text set by `loadBatchStats` for each outcome. -/
def errorText : ViewOutcome → Option String
  | .notFound => some "Batch statistics link not found"
  | .revoked => some "This batch statistics link has been revoked"
  | .expired => some "This batch statistics link has expired"
  | .ok _ => none

/-- The classification cascade of `loadBatchStats` (lines 75–91): no row →
not found; `!urlData.is_active` → revoked; `expires_at < now` → expired;
otherwise the stats for `urlData.batch_id` are loaded. -/
def classifyUrl (urlData : Option UrlRow) (now : Int) : ViewOutcome :=
  match urlData with
  | none => .notFound
  | some u =>
    if !u.is_active then .revoked
    else if u.expires_at < now then .expired
    else .ok u.batch_id

/-- `loadBatchStats` access path: the backend `maybeSingle` lookup of the
`public_id` (first matching row, none when no row matches) followed by the
classification cascade. -/
def loadBatchStats (urls : List UrlRow) (publicId : String) (now : Int) : ViewOutcome :=
  classifyUrl (urls.find? (fun u => u.public_id == publicId)) now

end PublicBatchStats

namespace AttendanceSessionManager

/-- A row of `attendance_sessions` as used by `AttendanceSessionManager`.
The batch reference is optional (the manager inserts without one); the
uniqueness of sessions is per (batch, date). -/
structure SessionRow where
  batch_id : Option String
  session_date : String
  session_code : String
  is_active : Bool
  expires_at : Int
deriving DecidableEq

/-- Modelled from the spec: the backend table `attendance_sessions` carries a
unique constraint on (batch, date); the constraint itself lives in the managed
database, not under `src/`.  Per the spec, inserting a second session for the
same (batch, date) is rejected by the uniqueness constraint and surfaced as
the known unique-violation error code `23505`; any other insert succeeds. -/
def backendInsertSession (existing : List SessionRow) (row : SessionRow) : Option DbError :=
  if existing.any (fun s => s.batch_id == row.batch_id && s.session_date == row.session_date) then
    some ⟨"23505"⟩
  else
    none

/-- The message set by `createTodaySession` (lines 43–79) from the backend
insert response: error code `23505` maps to the duplicate-specific message,
any other error is re-thrown and caught as the generic failure message, and
a successful insert yields the success message. -/
def createSessionMessage (result : Option DbError) : Message :=
  match result with
  | some e =>
    if e.code == "23505" then ⟨.error, "Attendance session for today already exists!"⟩
    else ⟨.error, "Failed to create attendance session"⟩
  | none => ⟨.success, "Attendance session created successfully!"⟩

/-- Client-side state of `AttendanceSessionManager` relevant to mutations:
the loaded session list and the banner message. -/
structure ManagerState where
  sessions : List SessionRow
  message : Option Message
deriving DecidableEq

/-- `toggleSessionStatus` (lines 81–99) as a state transition: the component
issues the update, and on success sets a success banner and re-fetches the
session list (`reloaded`); on a backend error it only sets the error banner
and performs no re-fetch. -/
def toggleSessionStatus (st : ManagerState) (currentStatus : Bool)
    (backendResult : Option DbError) (reloaded : List SessionRow) : ManagerState :=
  match backendResult with
  | some _ => { st with message := some ⟨.error, "Failed to update session status"⟩ }
  | none =>
    { sessions := reloaded,
      message := some ⟨.success,
        "Session " ++ (if !currentStatus then "activated" else "deactivated") ++ " successfully!"⟩ }

end AttendanceSessionManager

namespace AttendanceCalendar

/-- A row of `attendance_sessions` as selected by `loadMonthAttendance`
(`select('id, session_date, session_name, batch_name, public_id')`). -/
structure CalSession where
  id : String
  session_date : String
  session_name : String
  batch_name : Option String
  public_id : String
deriving DecidableEq

/-- The per-day aggregation entry built by `loadMonthAttendance`. -/
structure DayAttendance where
  date : String
  count : Nat
  percentage : ℚ
  sessionId : String
  sessionName : String
  batchName : String
  publicId : String
deriving DecidableEq

/-- The entry `loadMonthAttendance` stores for one session, given that
session's fetched attendance-record ids: `count` is the record count and
`percentage` is the binary `count > 0 ? 100 : 0` (line 342). -/
def mkDayAttendance (session : CalSession) (records : List String) : DayAttendance :=
  { date := session.session_date
    count := records.length
    percentage := if records.length > 0 then 100 else 0
    sessionId := session.id
    sessionName := session.session_name
    batchName := session.batch_name.getD "Default Batch"
    publicId := session.public_id }

/-- JavaScript object-key assignment `attendanceMap[key] = value`: replace the
value when the key is present, otherwise append the new key at the end. -/
def recordInsert (m : List (String × DayAttendance)) (k : String) (v : DayAttendance) :
    List (String × DayAttendance) :=
  if m.any (fun p => p.1 == k) then
    m.map (fun p => if p.1 == k then (k, v) else p)
  else
    m ++ [(k, v)]

/-- `loadMonthAttendance` (lines 311–356): fold the fetched month's sessions
into an object keyed by `session_date`, mapping each date to its
`DayAttendance` entry.  `recordsOf` gives the fetched record ids of each
session id. -/
def loadMonthAttendance (sessions : List CalSession) (recordsOf : String → List String) :
    List (String × DayAttendance) :=
  sessions.foldl (fun m s => recordInsert m s.session_date (mkDayAttendance s (recordsOf s.id))) []

end AttendanceCalendar

namespace AttendanceDashboard

/-- A row of `attendance_records` as loaded by `loadDailyStats`. -/
structure AttendanceRecord where
  id : String
  student_name : String
  marked_at : Int
  status : String
deriving DecidableEq

/-- A row of `attendance_sessions` as used by `AttendanceDashboard`. -/
structure AttendanceSession where
  id : String
  session_date : String
  session_code : String
  session_name : String
  batch_name : Option String
  batch_id : Option String
  public_id : String
  is_active : Bool
deriving DecidableEq

/-- The daily statistics object assembled by `loadDailyStats`. -/
structure DailyStats where
  date : String
  sessionName : String
  batchName : String
  total_present : Nat
  attendance_percentage : ℚ
  records : List AttendanceRecord
deriving DecidableEq

/-- `loadDailyStats` (lines 117–153) on a found session and its fetched
records: `total_present` is the record count and `attendance_percentage` is
the binary `totalPresent > 0 ? 100 : 0` (lines 136–137). -/
def loadDailyStats (selectedDate : String) (session : AttendanceSession)
    (records : List AttendanceRecord) : DailyStats :=
  { date := selectedDate
    sessionName := session.session_name
    batchName := session.batch_name.getD "Default Batch"
    total_present := records.length
    attendance_percentage := if records.length > 0 then 100 else 0
    records := records }

/-- The on-screen record list (lines 210–212): `stats?.records.filter` by
case-insensitive substring match on the student name, `[]` without stats. -/
def filteredRecords (stats : Option DailyStats) (searchFilter : String) :
    List AttendanceRecord :=
  match stats with
  | none => []
  | some st =>
    st.records.filter (fun record => includesLowerStr record.student_name searchFilter)

/-- Display formatting of a timestamp (`toLocaleTimeString`); the formatted
text is irrelevant to the exported row count, so it is modelled as `toString`. -/
def formatTimeCell (t : Int) : String := toString t

/-- The `rows` array built by `exportToCSV` (lines 159–165): one row per
entry of `stats.records` — the full loaded list, not the filtered view. -/
def exportRows (stats : DailyStats) (selectedDate : String) : List (List String) :=
  stats.records.map (fun record =>
    [selectedDate, stats.sessionName, record.student_name, record.status,
      formatTimeCell record.marked_at])

/-- Wrap a CSV cell in double quotes (`` `"${cell}"` `` in the source). -/
def quoteCell (cell : String) : String := "\"" ++ cell ++ "\""

/-- The CSV text produced by `exportToCSV` (lines 155–171): `none` when there
are no stats or no records (the early return produces no file), otherwise the
header line followed by one quoted line per record. -/
def exportToCSV (stats : Option DailyStats) (selectedDate : String) : Option String :=
  match stats with
  | none => none
  | some st =>
    if st.records.length = 0 then none
    else
      some (String.intercalate "\n"
        (String.intercalate "," ["Date", "Session Name", "Student Name", "Status", "Time"] ::
          (exportRows st selectedDate).map (fun row =>
            String.intercalate "," (row.map quoteCell))))

end AttendanceDashboard

namespace BatchAttendanceStats

/-- A per-student statistics row returned by the backend procedure
`get_batch_attendance_stats`.  Numeric fields are modelled as rationals. -/
structure StudentStats where
  student_name : String
  student_email : String
  total_sessions : ℚ
  sessions_present : ℚ
  sessions_absent : ℚ
  attendance_percentage : ℚ
deriving DecidableEq

/-- The batch-level overview row returned by `get_batch_overview`. -/
structure BatchOverview where
  batch_name : String
  batch_description : String
  total_students : ℚ
  total_sessions : ℚ
  average_attendance_percentage : ℚ
  last_session_date : Option String
deriving DecidableEq

/-- A row of `batch_public_urls` as loaded by `loadPublicUrls`. -/
structure BatchPublicUrl where
  id : String
  public_id : String
  is_active : Bool
  expires_at : Int
  created_at : Int
deriving DecidableEq

/-- `isExpired` (lines 249–251): the expiry timestamp is before now. -/
def isExpired (expiresAt now : Int) : Bool :=
  decide (expiresAt < now)

/-- `activeUrl` (line 295): the first fetched public-URL row that is active
and not expired, if any. -/
def activeUrl (publicUrls : List BatchPublicUrl) (now : Int) : Option BatchPublicUrl :=
  publicUrls.find? (fun url => url.is_active && !(isExpired url.expires_at now))

/-- The sort column selected by the component state `sortBy`. -/
inductive SortBy where
  | name
  | percentage
  | present
deriving DecidableEq

/-- The sort direction selected by the component state `sortOrder`. -/
inductive SortOrder where
  | asc
  | desc
deriving DecidableEq

/-- `localeCompare` modelled as the sign of the lexicographic comparison. -/
def strCmpVal (a b : String) : ℚ :=
  match compare a b with
  | .lt => -1
  | .eq => 0
  | .gt => 1

/-- The `comparison` value of the sort comparator (lines 258–265). -/
def comparison (sb : SortBy) (a b : StudentStats) : ℚ :=
  match sb with
  | .name => strCmpVal a.student_name b.student_name
  | .percentage => a.attendance_percentage - b.attendance_percentage
  | .present => a.sessions_present - b.sessions_present

/-- The comparator value actually returned (line 266): the `comparison` for
ascending order and its negation for descending order. -/
def cmpValue (sb : SortBy) (ord : SortOrder) (a b : StudentStats) : ℚ :=
  match ord with
  | .asc => comparison sb a b
  | .desc => -(comparison sb a b)

/-- The ordering relation induced by the comparator: `a` may come before `b`
exactly when the comparator value is non-positive. -/
def sortLe (sb : SortBy) (ord : SortOrder) (a b : StudentStats) : Prop :=
  cmpValue sb ord a b ≤ 0

instance (sb : SortBy) (ord : SortOrder) : DecidableRel (sortLe sb ord) := fun a b =>
  inferInstanceAs (Decidable (cmpValue sb ord a b ≤ 0))

/-- `filteredStats` (lines 253–255): case-insensitive substring filter on the
student name. -/
def filteredStats (stats : List StudentStats) (searchFilter : String) : List StudentStats :=
  stats.filter (fun stat => includesLowerStr stat.student_name searchFilter)

/-- `sortedStats` (lines 257–267): the filtered rows sorted by the comparator;
`[...].sort(cmp)` is modelled as sorting with respect to the comparator's
non-positive relation. -/
def sortedStats (stats : List StudentStats) (searchFilter : String)
    (sb : SortBy) (ord : SortOrder) : List StudentStats :=
  List.insertionSort (sortLe sb ord) (filteredStats stats searchFilter)

/-- The `rows` array built by `exportToCSV` (lines 189–196): one row per
entry of `studentStats` — the full fetched list, not the filtered/sorted
view. -/
def exportRows (studentStats : List StudentStats) : List (List String) :=
  studentStats.map (fun stat =>
    [stat.student_name,
      (if stat.student_email = "" then "-" else stat.student_email),
      toString stat.total_sessions,
      toString stat.sessions_present,
      toString stat.sessions_absent,
      toString stat.attendance_percentage ++ "%"])

/-- The CSV text produced by `exportToCSV` (lines 185–206): `none` when there
is no overview or no student rows (the early return produces no file),
otherwise four overview lines, a blank line, the header line and one quoted
line per student row. -/
def exportToCSV (batchOverview : Option BatchOverview)
    (studentStats : List StudentStats) : Option String :=
  match batchOverview with
  | none => none
  | some ov =>
    if studentStats.length = 0 then none
    else
      some (String.intercalate "\n"
        (("Batch: " ++ ov.batch_name) ::
          ("Total Students: " ++ toString ov.total_students) ::
          ("Total Sessions: " ++ toString ov.total_sessions) ::
          ("Average Attendance: " ++ toString ov.average_attendance_percentage ++ "%") ::
          "" ::
          String.intercalate ","
            ["Student Name", "Email", "Total Sessions", "Sessions Present",
              "Sessions Absent", "Attendance %"] ::
          (exportRows studentStats).map (fun row =>
            String.intercalate "," (row.map AttendanceDashboard.quoteCell))))

/-- Client-side state of `BatchAttendanceStats` relevant to mutations. -/
structure StatsState where
  studentStats : List StudentStats
  batchOverview : Option BatchOverview
  publicUrls : List BatchPublicUrl
  message : Option Message
deriving DecidableEq

/-- `revokePublicUrl` (lines 166–183) as a state transition: on success it
sets a success banner and re-fetches the public-URL list (`reloaded`); on a
backend error it only sets the error banner and performs no re-fetch. -/
def revokePublicUrl (st : StatsState) (backendResult : Option DbError)
    (reloaded : List BatchPublicUrl) : StatsState :=
  match backendResult with
  | some _ => { st with message := some ⟨.error, "Failed to revoke public URL"⟩ }
  | none =>
    { st with
      message := some ⟨.success, "Public URL revoked successfully!"⟩
      publicUrls := reloaded }

end BatchAttendanceStats

namespace AdminDashboard

/-- A row of `interview_rounds` as loaded by `loadRounds`. -/
structure InterviewRound where
  id : String
  student_name : String
  score : ℚ
  interviewer_name : String
  round_number : Nat
deriving DecidableEq

/-- The summary object returned by `calculateStats` in `AdminDashboard`. -/
structure LeaderStats where
  avg : ℚ
  highest : ℚ
  total : Nat
deriving DecidableEq

/-- `Math.max(...scores)` on a non-empty list: fold of `max` over the
elements (the empty case is unreachable behind the length guard). -/
def listMax : List ℚ → ℚ
  | [] => 0
  | h :: t => t.foldl max h

/-- `calculateStats` (lines 141–149): zeros for an empty round list,
otherwise the mean score, the maximum score and `rounds.length` (the
number of rounds, displayed as "Total Candidates"). -/
def calculateStats (rounds : List InterviewRound) : LeaderStats :=
  if rounds.length = 0 then ⟨0, 0, 0⟩
  else
    ⟨(rounds.map (·.score)).sum / ((rounds.map (·.score)).length : ℚ),
      listMax (rounds.map (·.score)),
      rounds.length⟩

end AdminDashboard

namespace ActivenessBoardSelector

/-- A row of `module_scores` as loaded by `loadScores`. -/
structure ModuleScore where
  id : String
  student_name : String
  module_number : Nat
  activeness_score : ℚ
deriving DecidableEq

/-- The summary object returned by `calculateStats` in
`ActivenessBoardSelector`. -/
structure ActStats where
  avg : ℚ
  highest : ℚ
  total : Nat
  totalModules : Nat
deriving DecidableEq

/-- `calculateStats` (lines 124–133): zeros for an empty score list,
otherwise the mean score, the maximum score, and the distinct-student and
distinct-module counts (`new Set(...).size`). -/
def calculateStats (scores : List ModuleScore) : ActStats :=
  if scores.length = 0 then ⟨0, 0, 0, 0⟩
  else
    ⟨(scores.map (·.activeness_score)).sum / ((scores.map (·.activeness_score)).length : ℚ),
      AdminDashboard.listMax (scores.map (·.activeness_score)),
      ((scores.map (·.student_name)).dedup).length,
      ((scores.map (·.module_number)).dedup).length⟩

end ActivenessBoardSelector

namespace Samples

/-- A live public-URL row of `batch_public_urls` (active, expires at 100). -/
def urlActive : BatchAttendanceStats.BatchPublicUrl :=
  { id := "u2", public_id := "pid2", is_active := true, expires_at := 100, created_at := 0 }

/-- A revoked public-URL row of `batch_public_urls` (inactive). -/
def urlInactive : BatchAttendanceStats.BatchPublicUrl :=
  { id := "u1", public_id := "pid1", is_active := false, expires_at := 100, created_at := 0 }

/-- A sample dashboard session row. -/
def dashSession : AttendanceDashboard.AttendanceSession :=
  { id := "s1", session_date := "2025-01-15", session_code := "attend-2025-01-15",
    session_name := "Session One", batch_name := some "Batch A", batch_id := some "b1",
    public_id := "p1", is_active := true }

/-- A sample attendance record for the student Alice. -/
def dashRecord : AttendanceDashboard.AttendanceRecord :=
  { id := "r1", student_name := "Alice", marked_at := 5, status := "present" }

/-- The daily stats loaded for the sample session with Alice present. -/
def dashStats : AttendanceDashboard.DailyStats :=
  AttendanceDashboard.loadDailyStats "2025-01-15" dashSession [dashRecord]

/-- A per-student statistics row for Alice (30% attendance). -/
def statAlice : BatchAttendanceStats.StudentStats :=
  { student_name := "Alice", student_email := "", total_sessions := 10, sessions_present := 3,
    sessions_absent := 7, attendance_percentage := 30 }

/-- A per-student statistics row for Bob (60% attendance). -/
def statBob : BatchAttendanceStats.StudentStats :=
  { student_name := "Bob", student_email := "", total_sessions := 10, sessions_present := 6,
    sessions_absent := 4, attendance_percentage := 60 }

/-- A sample calendar session row. -/
def calSession : AttendanceCalendar.CalSession :=
  { id := "c1", session_date := "2025-01-15", session_name := "S",
    batch_name := none, public_id := "pc1" }

/-- A live public-view URL row (active, expires at 50). -/
def urlRowLive : PublicBatchStats.UrlRow :=
  { public_id := "pub1", batch_id := "b1", is_active := true, expires_at := 50 }

/-- A revoked public-view URL row (inactive, expires at 50). -/
def urlRowRevoked : PublicBatchStats.UrlRow :=
  { public_id := "pub2", batch_id := "b1", is_active := false, expires_at := 50 }

/-- A sample attendance-session row for the session manager. -/
def sessRow : AttendanceSessionManager.SessionRow :=
  { batch_id := some "b1", session_date := "2025-01-15",
    session_code := "attend-2025-01-15", is_active := true, expires_at := 99 }

/-- An interview round of Alice scoring 5. -/
def roundOne : AdminDashboard.InterviewRound :=
  { id := "i1", student_name := "Alice", score := 5, interviewer_name := "X", round_number := 1 }

/-- A second interview round of the same student Alice scoring 7. -/
def roundTwo : AdminDashboard.InterviewRound :=
  { id := "i2", student_name := "Alice", score := 7, interviewer_name := "Y", round_number := 2 }

/-- A module score of Alice on module 1. -/
def mscoreOne : ActivenessBoardSelector.ModuleScore :=
  { id := "m1", student_name := "Alice", module_number := 1, activeness_score := 4 }

/-- A module score of Alice on module 2. -/
def mscoreTwo : ActivenessBoardSelector.ModuleScore :=
  { id := "m2", student_name := "Alice", module_number := 2, activeness_score := 8 }

end Samples

instance : IsTotal BatchAttendanceStats.StudentStats
    (BatchAttendanceStats.sortLe .percentage .asc) :=
  ⟨fun a b => by
    simp only [BatchAttendanceStats.sortLe, BatchAttendanceStats.cmpValue,
      BatchAttendanceStats.comparison, sub_nonpos]
    exact le_total _ _⟩

instance : IsTrans BatchAttendanceStats.StudentStats
    (BatchAttendanceStats.sortLe .percentage .asc) :=
  ⟨fun a b c hab hbc => by
    simp only [BatchAttendanceStats.sortLe, BatchAttendanceStats.cmpValue,
      BatchAttendanceStats.comparison, sub_nonpos] at hab hbc ⊢
    exact le_trans hab hbc⟩

instance : IsTotal BatchAttendanceStats.StudentStats
    (BatchAttendanceStats.sortLe .percentage .desc) :=
  ⟨fun a b => by
    simp only [BatchAttendanceStats.sortLe, BatchAttendanceStats.cmpValue,
      BatchAttendanceStats.comparison, neg_nonpos, sub_nonneg]
    exact le_total _ _⟩

instance : IsTrans BatchAttendanceStats.StudentStats
    (BatchAttendanceStats.sortLe .percentage .desc) :=
  ⟨fun a b c hab hbc => by
    simp only [BatchAttendanceStats.sortLe, BatchAttendanceStats.cmpValue,
      BatchAttendanceStats.comparison, neg_nonpos, sub_nonneg] at hab hbc ⊢
    exact le_trans hbc hab⟩

theorem sortLe_asc_iff (a b : BatchAttendanceStats.StudentStats) :
    BatchAttendanceStats.sortLe .percentage .asc a b ↔
      a.attendance_percentage ≤ b.attendance_percentage := by
  simp [BatchAttendanceStats.sortLe, BatchAttendanceStats.cmpValue,
    BatchAttendanceStats.comparison, sub_nonpos]

theorem sortLe_desc_iff (a b : BatchAttendanceStats.StudentStats) :
    BatchAttendanceStats.sortLe .percentage .desc a b ↔
      b.attendance_percentage ≤ a.attendance_percentage := by
  simp [BatchAttendanceStats.sortLe, BatchAttendanceStats.cmpValue,
    BatchAttendanceStats.comparison, neg_nonpos, sub_nonneg]

theorem find_eq_some_split {α : Type} (p : α → Bool) (l : List α) (a : α)
    (h : l.find? p = some a) :
    ∃ l₁ l₂, l = l₁ ++ a :: l₂ ∧ p a = true ∧ ∀ b ∈ l₁, p b = false := by
  induction l with
  | nil => simp at h
  | cons x xs ih =>
    cases hx : p x with
    | true =>
      rw [List.find?_cons_of_pos _ hx] at h
      obtain rfl : x = a := by injection h
      exact ⟨[], xs, rfl, hx, by simp⟩
    | false =>
      rw [List.find?_cons_of_neg _ (by simp [hx])] at h
      obtain ⟨l₁, l₂, rfl, hpa, hall⟩ := ih h
      refine ⟨x :: l₁, l₂, rfl, hpa, ?_⟩
      intro b hb
      rcases List.mem_cons.mp hb with rfl | hb
      · exact hx
      · exact hall b hb

theorem le_foldl_max (l : List ℚ) (a : ℚ) : a ≤ l.foldl max a := by
  induction l generalizing a with
  | nil => simp
  | cons x xs ih => exact le_trans (le_max_left a x) (ih (max a x))

theorem foldl_max_mem (l : List ℚ) (a : ℚ) : l.foldl max a = a ∨ l.foldl max a ∈ l := by
  induction l generalizing a with
  | nil => simp
  | cons x xs ih =>
    rw [List.foldl_cons]
    rcases ih (max a x) with h | h
    · rw [h]
      rcases le_total a x with hax | hax
      · right
        rw [max_eq_right hax]
        exact List.mem_cons_self x xs
      · left
        exact max_eq_left hax
    · right
      exact List.mem_cons_of_mem x h

theorem mem_le_foldl_max (l : List ℚ) (a x : ℚ) (hx : x ∈ l) : x ≤ l.foldl max a := by
  induction l generalizing a with
  | nil => cases hx
  | cons y ys ih =>
    rw [List.foldl_cons]
    rcases List.mem_cons.mp hx with rfl | hx
    · exact le_trans (le_max_right a x) (le_foldl_max ys (max a x))
    · exact ih (max a y) hx

theorem listMax_mem (l : List ℚ) (h : l ≠ []) : AdminDashboard.listMax l ∈ l := by
  match l with
  | [] => exact absurd rfl h
  | x :: xs =>
    rcases foldl_max_mem xs x with h1 | h1
    · rw [AdminDashboard.listMax, h1]
      exact List.mem_cons_self x xs
    · rw [AdminDashboard.listMax]
      exact List.mem_cons_of_mem x h1

theorem le_listMax (l : List ℚ) (x : ℚ) (hx : x ∈ l) : x ≤ AdminDashboard.listMax l := by
  match l with
  | [] => cases hx
  | y :: ys =>
    rw [AdminDashboard.listMax]
    rcases List.mem_cons.mp hx with rfl | hx
    · exact le_foldl_max ys x
    · exact mem_le_foldl_max ys y x hx

theorem countP_recordInsert_le (m : List (String × AttendanceCalendar.DayAttendance))
    (k : String) (v : AttendanceCalendar.DayAttendance) (d : String)
    (hm : m.countP (fun p => p.1 == d) ≤ 1) :
    (AttendanceCalendar.recordInsert m k v).countP (fun p => p.1 == d) ≤ 1 := by
  unfold AttendanceCalendar.recordInsert
  by_cases hany : m.any (fun p => p.1 == k)
  · rw [if_pos hany, List.countP_map]
    calc m.countP ((fun p => p.1 == d) ∘ fun p => if p.1 == k then (k, v) else p)
        = m.countP (fun p => p.1 == d) := by
          apply List.countP_congr
          intro p _
          by_cases hk : p.1 == k
          · have : p.1 = k := by exact eq_of_beq hk
            simp [Function.comp, hk, this]
          · simp [Function.comp, hk]
      _ ≤ 1 := hm
  · rw [if_neg hany, List.countP_append]
    by_cases hkd : k == d
    · have hk : k = d := eq_of_beq hkd
      have hz : m.countP (fun p => p.1 == d) = 0 := by
        rw [List.countP_eq_zero]
        intro p hp
        have := (List.any_eq_true.not.mp hany)
        push_neg at this
        have hpk : ¬ (p.1 == k) = true := by
          intro hc
          exact hany (List.any_eq_true.mpr ⟨p, hp, hc⟩)
        subst hk
        exact hpk
      rw [hz]
      simp [List.countP_cons, hkd]
    · have : List.countP (fun p => p.1 == d) [(k, v)] = 0 := by
        simp [List.countP_cons, hkd]
      rw [this]
      simpa using hm

theorem countP_foldl_recordInsert_le (recordsOf : String → List String) (d : String)
    (sessions : List AttendanceCalendar.CalSession) :
    ∀ m : List (String × AttendanceCalendar.DayAttendance),
      m.countP (fun p => p.1 == d) ≤ 1 →
        (sessions.foldl (fun m s =>
            AttendanceCalendar.recordInsert m s.session_date
              (AttendanceCalendar.mkDayAttendance s (recordsOf s.id))) m).countP
            (fun p => p.1 == d) ≤ 1 := by
  induction sessions with
  | nil => intro m hm; simpa using hm
  | cons s ss ih =>
    intro m hm
    rw [List.foldl_cons]
    exact ih _ (countP_recordInsert_le m s.session_date _ d hm)

theorem activeUrl_pred_iff (u : BatchAttendanceStats.BatchPublicUrl) (now : Int) :
    (u.is_active && !(BatchAttendanceStats.isExpired u.expires_at now)) = true ↔
      (u.is_active = true ∧ ¬ (u.expires_at < now)) := by
  simp [BatchAttendanceStats.isExpired]

/-- C2: every public-view access classifies into exactly one of three distinct
user-facing messages by cause: not found when no URL row matches the public
identifier, revoked when the matching row has `is_active = false`, and expired
when the matching row is active but its expiry timestamp is before now; the
three message texts are pairwise distinct. -/
theorem c2_public_view_classification :
    (∀ (urls : List PublicBatchStats.UrlRow) (pid : String) (now : Int),
        (∀ u ∈ urls, u.public_id ≠ pid) →
          PublicBatchStats.loadBatchStats urls pid now = .notFound) ∧
      (∀ (urls : List PublicBatchStats.UrlRow) (pid : String) (now : Int)
          (u : PublicBatchStats.UrlRow),
        urls.find? (fun r => r.public_id == pid) = some u → u.is_active = false →
          PublicBatchStats.loadBatchStats urls pid now = .revoked) ∧
      (∀ (urls : List PublicBatchStats.UrlRow) (pid : String) (now : Int)
          (u : PublicBatchStats.UrlRow),
        urls.find? (fun r => r.public_id == pid) = some u → u.is_active = true →
          u.expires_at < now →
          PublicBatchStats.loadBatchStats urls pid now = .expired) ∧
      (PublicBatchStats.errorText .notFound ≠ PublicBatchStats.errorText .revoked ∧
        PublicBatchStats.errorText .notFound ≠ PublicBatchStats.errorText .expired ∧
        PublicBatchStats.errorText .revoked ≠ PublicBatchStats.errorText .expired) := by
  refine ⟨?_, ?_, ?_, by decide⟩
  · intro urls pid now h
    have hnone : urls.find? (fun r => r.public_id == pid) = none := by
      rw [List.find?_eq_none]
      intro u hu
      simpa using h u hu
    rw [PublicBatchStats.loadBatchStats, hnone]
    rfl
  · intro urls pid now u hfind hact
    rw [PublicBatchStats.loadBatchStats, hfind]
    simp [PublicBatchStats.classifyUrl, hact]
  · intro urls pid now u hfind hact hexp
    rw [PublicBatchStats.loadBatchStats, hfind]
    simp [PublicBatchStats.classifyUrl, hact, hexp]

/-- C2 witness: on concrete rows, an unmatched identifier classifies as not
found, a matching revoked row as revoked, and a matching active row past its
expiry as expired. -/
theorem c2_public_view_classification_witness :
    PublicBatchStats.loadBatchStats [Samples.urlRowLive] "nope" 0 = .notFound ∧
      PublicBatchStats.loadBatchStats [Samples.urlRowRevoked] "pub2" 0 = .revoked ∧
      PublicBatchStats.loadBatchStats [Samples.urlRowLive] "pub1" 60 = .expired :=
  ⟨c2_public_view_classification.1 [Samples.urlRowLive] "nope" 0 (by decide),
    c2_public_view_classification.2.1 [Samples.urlRowRevoked] "pub2" 0 Samples.urlRowRevoked
      (by decide) (by decide),
    c2_public_view_classification.2.2.1 [Samples.urlRowLive] "pub1" 60 Samples.urlRowLive
      (by decide) (by decide) (by decide)⟩

/-- C10: a public URL row that is both revoked (`is_active = false`) and past
its expiry classifies as revoked and never as expired — the active-flag check
strictly precedes the expiry check. -/
theorem c10_revoked_takes_precedence (u : PublicBatchStats.UrlRow) (now : Int)
    (hact : u.is_active = false) (hexp : u.expires_at < now) :
    PublicBatchStats.classifyUrl (some u) now = .revoked ∧
      PublicBatchStats.classifyUrl (some u) now ≠ .expired := by
  have h : PublicBatchStats.classifyUrl (some u) now = .revoked := by
    simp [PublicBatchStats.classifyUrl, hact]
  exact ⟨h, by rw [h]; exact fun hc => by injection hc⟩

/-- C10 witness: a concrete revoked and expired row classifies as revoked. -/
theorem c10_revoked_takes_precedence_witness :
    PublicBatchStats.classifyUrl (some Samples.urlRowRevoked) 60 = .revoked ∧
      PublicBatchStats.classifyUrl (some Samples.urlRowRevoked) 60 ≠ .expired :=
  c10_revoked_takes_precedence Samples.urlRowRevoked 60 (by decide) (by decide)

/-- C3: inserting a session when one already exists for the same (batch, date)
is rejected by the backend unique constraint (error code 23505, modelled from
the spec) and surfaced as the duplicate-specific already-exists message, while
any other creation failure yields the generic failure message. -/
theorem c3_duplicate_session_message :
    (∀ (existing : List AttendanceSessionManager.SessionRow)
        (row : AttendanceSessionManager.SessionRow),
        (∃ s ∈ existing, s.batch_id = row.batch_id ∧ s.session_date = row.session_date) →
          AttendanceSessionManager.createSessionMessage
              (AttendanceSessionManager.backendInsertSession existing row) =
            ⟨.error, "Attendance session for today already exists!"⟩) ∧
      (∀ e : DbError, e.code ≠ "23505" →
        AttendanceSessionManager.createSessionMessage (some e) =
          ⟨.error, "Failed to create attendance session"⟩) := by
  constructor
  · intro existing row ⟨s, hs, hb, hd⟩
    have hany : existing.any
        (fun s => s.batch_id == row.batch_id && s.session_date == row.session_date) = true :=
      List.any_eq_true.mpr ⟨s, hs, by simp [hb, hd]⟩
    rw [AttendanceSessionManager.backendInsertSession, if_pos hany]
    rfl
  · intro e he
    simp [AttendanceSessionManager.createSessionMessage, he]

/-- C3 witness: a concrete duplicate (batch, date) insert yields the
already-exists message, and a non-23505 error yields the generic message. -/
theorem c3_duplicate_session_message_witness :
    AttendanceSessionManager.createSessionMessage
        (AttendanceSessionManager.backendInsertSession [Samples.sessRow] Samples.sessRow) =
        ⟨.error, "Attendance session for today already exists!"⟩ ∧
      AttendanceSessionManager.createSessionMessage (some ⟨"42501"⟩) =
        ⟨.error, "Failed to create attendance session"⟩ :=
  ⟨c3_duplicate_session_message.1 [Samples.sessRow] Samples.sessRow
      ⟨Samples.sessRow, by simp, rfl, rfl⟩,
    c3_duplicate_session_message.2 ⟨"42501"⟩ (by decide)⟩

/-- C4: the computed daily attendance percentage is binary — 100 when at least
one attendance record exists for the session, 0 when the record list is empty —
both in the daily dashboard stats and in the monthly calendar aggregation. -/
theorem c4_binary_percentage :
    (∀ (d : String) (sess : AttendanceDashboard.AttendanceSession)
        (records : List AttendanceDashboard.AttendanceRecord), records ≠ [] →
        (AttendanceDashboard.loadDailyStats d sess records).attendance_percentage = 100) ∧
      (∀ (d : String) (sess : AttendanceDashboard.AttendanceSession),
        (AttendanceDashboard.loadDailyStats d sess []).attendance_percentage = 0) ∧
      (∀ (s : AttendanceCalendar.CalSession) (rs : List String), rs ≠ [] →
        (AttendanceCalendar.mkDayAttendance s rs).percentage = 100) ∧
      (∀ s : AttendanceCalendar.CalSession,
        (AttendanceCalendar.mkDayAttendance s []).percentage = 0) := by
  refine ⟨?_, ?_, ?_, ?_⟩
  · intro d sess records h
    simp [AttendanceDashboard.loadDailyStats, List.length_pos.mpr h]
  · intro d sess
    simp [AttendanceDashboard.loadDailyStats]
  · intro s rs h
    simp [AttendanceCalendar.mkDayAttendance, List.length_pos.mpr h]
  · intro s
    simp [AttendanceCalendar.mkDayAttendance]

/-- C4 witness: one record gives 100%, and the empty record list gives 0%, in
both components, at concrete inputs. -/
theorem c4_binary_percentage_witness :
    (AttendanceDashboard.loadDailyStats "2025-01-15" Samples.dashSession
        [Samples.dashRecord]).attendance_percentage = 100 ∧
      (AttendanceCalendar.mkDayAttendance Samples.calSession ["r1"]).percentage = 100 :=
  ⟨c4_binary_percentage.1 "2025-01-15" Samples.dashSession [Samples.dashRecord] (by decide),
    c4_binary_percentage.2.2.1 Samples.calSession ["r1"] (by decide)⟩

/-- C7: the calendar date-to-attendance mapping built by `loadMonthAttendance`
associates at most one session entry with each calendar day, for every fetched
session list (including lists with several sessions on the same date). -/
theorem c7_calendar_at_most_one_per_day (sessions : List AttendanceCalendar.CalSession)
    (recordsOf : String → List String) (date : String) :
    (AttendanceCalendar.loadMonthAttendance sessions recordsOf).countP
        (fun p => p.1 == date) ≤ 1 := by
  rw [AttendanceCalendar.loadMonthAttendance]
  exact countP_foldl_recordInsert_le recordsOf date sessions [] (by simp)

/-- C9: a failed mutation (toggling a session's status, revoking a public URL)
leaves all client-side state other than the error banner unchanged: the loaded
session and public-URL lists, the student statistics and the batch overview
are not modified and no re-fetch replaces them on the error path. -/
theorem c9_failed_mutation_frame :
    (∀ (st : AttendanceSessionManager.ManagerState) (cur : Bool) (e : DbError)
        (reloaded : List AttendanceSessionManager.SessionRow),
        (AttendanceSessionManager.toggleSessionStatus st cur (some e) reloaded).sessions =
            st.sessions ∧
          (AttendanceSessionManager.toggleSessionStatus st cur (some e) reloaded).message =
            some ⟨.error, "Failed to update session status"⟩) ∧
      (∀ (st : BatchAttendanceStats.StatsState) (e : DbError)
          (reloaded : List BatchAttendanceStats.BatchPublicUrl),
        (BatchAttendanceStats.revokePublicUrl st (some e) reloaded).publicUrls =
            st.publicUrls ∧
          (BatchAttendanceStats.revokePublicUrl st (some e) reloaded).studentStats =
            st.studentStats ∧
          (BatchAttendanceStats.revokePublicUrl st (some e) reloaded).batchOverview =
            st.batchOverview ∧
          (BatchAttendanceStats.revokePublicUrl st (some e) reloaded).message =
            some ⟨.error, "Failed to revoke public URL"⟩) :=
  ⟨fun _ _ _ _ => ⟨rfl, rfl⟩, fun _ _ _ => ⟨rfl, rfl, rfl, rfl⟩⟩

/-- C5: for every fetched public-URL list, at most one record is surfaced as
the active link (the result is an `Option`), namely the first record in
fetched order that is active and not expired; when no such record exists,
no active link is surfaced. -/
theorem c5_active_url_first_match (l : List BatchAttendanceStats.BatchPublicUrl) (now : Int) :
    (∀ u, BatchAttendanceStats.activeUrl l now = some u →
        (u.is_active = true ∧ ¬ (u.expires_at < now)) ∧
          ∃ l₁ l₂, l = l₁ ++ u :: l₂ ∧
            ∀ v ∈ l₁, ¬ (v.is_active = true ∧ ¬ (v.expires_at < now))) ∧
      (BatchAttendanceStats.activeUrl l now = none ↔
        ∀ u ∈ l, ¬ (u.is_active = true ∧ ¬ (u.expires_at < now))) := by
  constructor
  · intro u hu
    obtain ⟨l₁, l₂, hsplit, hpa, hall⟩ := find_eq_some_split _ l u hu
    refine ⟨(activeUrl_pred_iff u now).mp hpa, l₁, l₂, hsplit, ?_⟩
    intro v hv hc
    have hvf := hall v hv
    have hvt := (activeUrl_pred_iff v now).mpr hc
    rw [hvt] at hvf
    exact Bool.noConfusion hvf
  · rw [BatchAttendanceStats.activeUrl, List.find?_eq_none]
    constructor
    · intro h u hu hc
      exact h u hu ((activeUrl_pred_iff u now).mpr hc)
    · intro h u hu hc
      exact h u hu ((activeUrl_pred_iff u now).mp hc)

/-- C5 witness: in a concrete list whose first row is revoked and second row
is live, the surfaced active link is the second row, the first match. -/
theorem c5_active_url_first_match_witness :
    (Samples.urlActive.is_active = true ∧ ¬ (Samples.urlActive.expires_at < 10)) ∧
      ∃ l₁ l₂, [Samples.urlInactive, Samples.urlActive] = l₁ ++ Samples.urlActive :: l₂ ∧
        ∀ v ∈ l₁, ¬ (v.is_active = true ∧ ¬ (v.expires_at < 10)) :=
  (c5_active_url_first_match [Samples.urlInactive, Samples.urlActive] 10).1
    Samples.urlActive (by decide)

/-- C6: on a dataset whose attendance percentages are pairwise distinct,
sorting by percentage in descending order and toggling to ascending order
yields exactly the reversed sequence of entries. -/
theorem c6_percentage_sort_toggle_reverse
    (stats : List BatchAttendanceStats.StudentStats) (f : String)
    (hdist : stats.Pairwise
      (fun a b => a.attendance_percentage ≠ b.attendance_percentage)) :
    BatchAttendanceStats.sortedStats stats f .percentage .asc =
      (BatchAttendanceStats.sortedStats stats f .percentage .desc).reverse := by
  have hdl : (BatchAttendanceStats.filteredStats stats f).Pairwise
      (fun a b => a.attendance_percentage ≠ b.attendance_percentage) :=
    List.Pairwise.sublist (List.filter_sublist _) hdist
  rw [BatchAttendanceStats.sortedStats, BatchAttendanceStats.sortedStats]
  set l := BatchAttendanceStats.filteredStats stats f with hldef
  set A := List.insertionSort (BatchAttendanceStats.sortLe .percentage .asc) l with hA
  set D := List.insertionSort (BatchAttendanceStats.sortLe .percentage .desc) l with hD
  have pA : List.Perm A l := List.perm_insertionSort _ l
  have pD : List.Perm D l := List.perm_insertionSort _ l
  have pDrev : List.Perm D.reverse l := (List.reverse_perm D).trans pD
  have sA : A.Pairwise (BatchAttendanceStats.sortLe .percentage .asc) :=
    List.sorted_insertionSort _ l
  have sD : D.Pairwise (BatchAttendanceStats.sortLe .percentage .desc) :=
    List.sorted_insertionSort _ l
  have sA' : A.Pairwise
      (fun a b : BatchAttendanceStats.StudentStats =>
        a.attendance_percentage ≤ b.attendance_percentage) :=
    sA.imp (fun h => (sortLe_asc_iff _ _).mp h)
  have sDrev : D.reverse.Pairwise
      (fun a b : BatchAttendanceStats.StudentStats =>
        a.attendance_percentage ≤ b.attendance_percentage) :=
    List.pairwise_reverse.mpr (sD.imp (fun h => (sortLe_desc_iff _ _).mp h))
  have dA : A.Pairwise
      (fun a b => a.attendance_percentage ≠ b.attendance_percentage) :=
    (pA.pairwise_iff (fun h => h.symm)).mpr hdl
  have dDrev : D.reverse.Pairwise
      (fun a b => a.attendance_percentage ≠ b.attendance_percentage) :=
    (pDrev.pairwise_iff (fun h => h.symm)).mpr hdl
  have strictA : A.Pairwise
      (fun a b : BatchAttendanceStats.StudentStats =>
        a.attendance_percentage < b.attendance_percentage) :=
    (sA'.and dA).imp (fun h => lt_of_le_of_ne h.1 h.2)
  have strictDrev : D.reverse.Pairwise
      (fun a b : BatchAttendanceStats.StudentStats =>
        a.attendance_percentage < b.attendance_percentage) :=
    (sDrev.and dDrev).imp (fun h => lt_of_le_of_ne h.1 h.2)
  haveI : IsAntisymm BatchAttendanceStats.StudentStats
      (fun a b => a.attendance_percentage < b.attendance_percentage) :=
    ⟨fun a b h1 h2 => absurd (h1.trans h2) (lt_irrefl _)⟩
  exact List.eq_of_perm_of_sorted (pA.trans pDrev.symm) strictA strictDrev

/-- C6 witness: a concrete two-entry dataset with distinct percentages,
sorted ascending, is the reverse of the same dataset sorted descending. -/
theorem c6_percentage_sort_toggle_reverse_witness :
    List.Pairwise
        (fun a b : BatchAttendanceStats.StudentStats =>
          a.attendance_percentage ≠ b.attendance_percentage)
        [Samples.statBob, Samples.statAlice] ∧
      BatchAttendanceStats.sortedStats [Samples.statBob, Samples.statAlice] ""
          .percentage .asc =
        (BatchAttendanceStats.sortedStats [Samples.statBob, Samples.statAlice] ""
          .percentage .desc).reverse := by
  have hp : List.Pairwise
      (fun a b : BatchAttendanceStats.StudentStats =>
        a.attendance_percentage ≠ b.attendance_percentage)
      [Samples.statBob, Samples.statAlice] := by
    simp [List.pairwise_cons, Samples.statBob, Samples.statAlice]
  exact ⟨hp, c6_percentage_sort_toggle_reverse [Samples.statBob, Samples.statAlice] "" hp⟩

/-- C1 counterexample: with one loaded record named Alice and the search
filter "b", the on-screen filtered view is empty while the CSV export still
produces one data row, in both the attendance dashboard export and the batch
statistics export — so the CSV data-row count does not equal the on-screen
filtered record count. -/
theorem c1_csv_counterexample :
    (AttendanceDashboard.exportRows Samples.dashStats "2025-01-15").length ≠
        (AttendanceDashboard.filteredRecords (some Samples.dashStats) "b").length ∧
      (BatchAttendanceStats.exportRows [Samples.statAlice]).length ≠
        (BatchAttendanceStats.sortedStats [Samples.statAlice] "b" .percentage .desc).length := by
  decide

/-- C1 (amended): exporting to CSV produces one data row per record of the
full loaded record set (`stats.records` / `studentStats`), so the CSV
data-row count equals the loaded record count in both exports; it equals the
on-screen filtered/sorted count exactly in the case that the search filter
excludes no record. -/
theorem c1_csv_rows_full_list :
    (∀ (st : AttendanceDashboard.DailyStats) (d : String),
        (AttendanceDashboard.exportRows st d).length = st.records.length) ∧
      (∀ ss : List BatchAttendanceStats.StudentStats,
        (BatchAttendanceStats.exportRows ss).length = ss.length) ∧
      (∀ (st : AttendanceDashboard.DailyStats) (f : String) (d : String),
        AttendanceDashboard.filteredRecords (some st) f = st.records →
          (AttendanceDashboard.exportRows st d).length =
            (AttendanceDashboard.filteredRecords (some st) f).length) ∧
      (∀ (ss : List BatchAttendanceStats.StudentStats) (f : String)
          (sb : BatchAttendanceStats.SortBy) (ord : BatchAttendanceStats.SortOrder),
        BatchAttendanceStats.filteredStats ss f = ss →
          (BatchAttendanceStats.exportRows ss).length =
            (BatchAttendanceStats.sortedStats ss f sb ord).length) := by
  refine ⟨?_, ?_, ?_, ?_⟩
  · intro st d
    exact List.length_map _ _
  · intro ss
    exact List.length_map _ _
  · intro st f d h
    rw [h]
    exact List.length_map _ _
  · intro ss f sb ord h
    rw [BatchAttendanceStats.sortedStats,
      (List.perm_insertionSort (BatchAttendanceStats.sortLe sb ord) _).length_eq, h]
    exact List.length_map _ _

/-- C1 witness: with the empty search filter (which excludes no record) the
export row count does equal the on-screen count, at concrete inputs. -/
theorem c1_csv_rows_full_list_witness :
    (AttendanceDashboard.exportRows Samples.dashStats "2025-01-15").length =
        (AttendanceDashboard.filteredRecords (some Samples.dashStats) "").length ∧
      (BatchAttendanceStats.exportRows [Samples.statAlice]).length =
        (BatchAttendanceStats.sortedStats [Samples.statAlice] "" .percentage .desc).length :=
  ⟨c1_csv_rows_full_list.2.2.1 Samples.dashStats "" "2025-01-15" (by decide),
    c1_csv_rows_full_list.2.2.2 [Samples.statAlice] "" .percentage .desc (by decide)⟩

/-- C8 counterexample: two interview rounds of the same student make
`calculateStats` report a count of 2, while the distinct-student count is 1 —
the leaderboard summary count is the number of rounds, not a distinct-entity
count. -/
theorem c8_stats_counterexample :
    (AdminDashboard.calculateStats [Samples.roundOne, Samples.roundTwo]).total ≠
      (([Samples.roundOne, Samples.roundTwo].map
        (fun r => r.student_name)).dedup).length := by
  decide

/-- C8 (amended): for a non-empty fetched set the average equals the
arithmetic mean of the scores and the highest equals the maximum score, and
for an empty set all summary statistics are zero, in both components; the
activeness-board counts are distinct-entity counts (distinct students and
distinct modules), while the leaderboard count is the number of fetched
rounds. -/
theorem c8_summary_stats :
    (∀ rounds : List AdminDashboard.InterviewRound, rounds ≠ [] →
        (AdminDashboard.calculateStats rounds).avg =
            (rounds.map (fun r => r.score)).sum /
              ((rounds.map (fun r => r.score)).length : ℚ) ∧
          (AdminDashboard.calculateStats rounds).highest ∈ rounds.map (fun r => r.score) ∧
          (∀ x ∈ rounds.map (fun r => r.score),
            x ≤ (AdminDashboard.calculateStats rounds).highest) ∧
          (AdminDashboard.calculateStats rounds).total = rounds.length) ∧
      AdminDashboard.calculateStats [] = ⟨0, 0, 0⟩ ∧
      (∀ scores : List ActivenessBoardSelector.ModuleScore, scores ≠ [] →
        (ActivenessBoardSelector.calculateStats scores).avg =
            (scores.map (fun s => s.activeness_score)).sum /
              ((scores.map (fun s => s.activeness_score)).length : ℚ) ∧
          (ActivenessBoardSelector.calculateStats scores).highest ∈
            scores.map (fun s => s.activeness_score) ∧
          (∀ x ∈ scores.map (fun s => s.activeness_score),
            x ≤ (ActivenessBoardSelector.calculateStats scores).highest) ∧
          (ActivenessBoardSelector.calculateStats scores).total =
            ((scores.map (fun s => s.student_name)).toFinset).card ∧
          (ActivenessBoardSelector.calculateStats scores).totalModules =
            ((scores.map (fun s => s.module_number)).toFinset).card) ∧
      ActivenessBoardSelector.calculateStats [] = ⟨0, 0, 0, 0⟩ := by
  refine ⟨?_, rfl, ?_, rfl⟩
  · intro rounds h
    have hlen : rounds.length ≠ 0 := by simpa using h
    have hne : rounds.map (fun r => r.score) ≠ [] := by simpa using h
    rw [AdminDashboard.calculateStats, if_neg hlen]
    exact ⟨rfl, listMax_mem _ hne, fun x hx => le_listMax _ x hx, rfl⟩
  · intro scores h
    have hlen : scores.length ≠ 0 := by simpa using h
    have hne : scores.map (fun s => s.activeness_score) ≠ [] := by simpa using h
    rw [ActivenessBoardSelector.calculateStats, if_neg hlen]
    exact ⟨rfl, listMax_mem _ hne, fun x hx => le_listMax _ x hx,
      (List.card_toFinset _).symm, (List.card_toFinset _).symm⟩

/-- C8 witness: the leaderboard count at a concrete two-round input is the
round count, and the activeness count is the distinct-student count. -/
theorem c8_summary_stats_witness :
    (AdminDashboard.calculateStats [Samples.roundOne, Samples.roundTwo]).total =
        [Samples.roundOne, Samples.roundTwo].length ∧
      (ActivenessBoardSelector.calculateStats [Samples.mscoreOne, Samples.mscoreTwo]).total =
        (([Samples.mscoreOne, Samples.mscoreTwo].map
          (fun s => s.student_name)).toFinset).card :=
  ⟨(c8_summary_stats.1 [Samples.roundOne, Samples.roundTwo] (by decide)).2.2.2,
    (c8_summary_stats.2.2.1 [Samples.mscoreOne, Samples.mscoreTwo] (by decide)).2.2.2.1⟩

end MockInterview
